import Mathlib

/-!
Shallow embedding of the note state-synchronization layer of the Cosmic
Notes application (src/src/components/note-app.tsx, the remote-backed
variant).  The component state is the triple of React `useState` cells
`notes`, `selectedNoteId`, `loading`.  Each handler that talks to the
remote store adapter is embedded as a total function of the current state
and the adapter response (`Except StoreError _`); the returned `Bool`
records whether the `catch` branch fired (`console.error`), i.e. whether a
non-fatal error signal was surfaced instead of a thrown exception.
-/

/-- The `Note` record, from the `interface Note` declaration. -/
structure Note where
  id : String
  title : String
  content : String
  category : String
  created_at : String
deriving DecidableEq, Repr

/-- The single error kind raised by remote store adapter calls. -/
structure StoreError where
  message : String
deriving DecidableEq, Repr

/-- The component state: the `useState` cells of `NoteApp` that the core
claims talk about (`connectionStatus` is presentation-only and omitted). -/
structure AppState where
  notes : List Note
  selectedNoteId : Option String
  loading : Bool
deriving DecidableEq, Repr

/-- Initial `useState` values: `notes=[]`, `selectedNoteId=null`,
`loading=true`. -/
def initialState : AppState :=
  { notes := [], selectedNoteId := none, loading := true }

/-- JavaScript truthiness of `selectedNoteId : string | null`:
`!selectedNoteId` is true exactly when the value is `null` or the empty
string. -/
def jsFalsy : Option String → Bool
  | none => true
  | some s => decide (s = "")

/-- `fetchNotes`: on adapter success, `setNotes(data)`, and when
`data.length > 0 && !selectedNoteId`, `setSelectedNoteId(data[0].id)`;
on failure `console.error` only; `setLoading(false)` in `finally`. -/
def fetchNotes (s : AppState) (res : Except StoreError (List Note)) :
    AppState × Bool :=
  match res with
  | .error _ => ({ s with loading := false }, true)
  | .ok data =>
    let sel : Option String :=
      match data, jsFalsy s.selectedNoteId with
      | d :: _, true => some d.id
      | _, _ => s.selectedNoteId
    ({ s with notes := data, selectedNoteId := sel, loading := false }, false)

/-- Derived read `selectedNote = notes.find(n => n.id === selectedNoteId) || null`. -/
def selectedNote (s : AppState) : Option Note :=
  s.notes.find? (fun note => decide (some note.id = s.selectedNoteId))

/-- `handleNoteSelect`: unconditionally `setSelectedNoteId(id)`. -/
def handleNoteSelect (s : AppState) (id : String) : AppState :=
  { s with selectedNoteId := some id }

/-- The draft object sent by `handleNoteCreate` (no id / created_at: the
server assigns them). -/
structure NoteDraft where
  title : String
  content : String
  category : String
deriving DecidableEq, Repr

/-- The literal `newNote` object built in `handleNoteCreate`. -/
def newNote : NoteDraft :=
  { title := "New Note", content := "", category := "Uncategorized" }

/-- Remote store adapter contract for `create` (spec section 6): the
returned `Note` carries the draft fields unchanged, with server-assigned
`id` and `created_at`. -/
def respondsTo (draft : NoteDraft) (n : Note) : Prop :=
  n.title = draft.title ∧ n.content = draft.content ∧
    n.category = draft.category

/-- `handleNoteCreate`: on adapter success with returned row `data`,
`setNotes([data, ...notes])` and `setSelectedNoteId(data.id)`; on failure
`console.error` only. -/
def handleNoteCreate (s : AppState) (res : Except StoreError Note) :
    AppState × Bool :=
  match res with
  | .error _ => (s, true)
  | .ok data =>
    ({ s with notes := data :: s.notes, selectedNoteId := some data.id },
      false)

/-- `handleNoteUpdate`: on adapter success,
`setNotes(notes.map(note => note.id === updatedNote.id ? updatedNote : note))`;
on failure `console.error` only. -/
def handleNoteUpdate (s : AppState) (updatedNote : Note)
    (res : Except StoreError Unit) : AppState × Bool :=
  match res with
  | .error _ => (s, true)
  | .ok _ =>
    ({ s with
        notes := s.notes.map
          (fun note => if note.id = updatedNote.id then updatedNote
            else note) },
      false)

/-- `handleNoteDelete`: on adapter success,
`setNotes(notes.filter(note => note.id !== id))`, and when
`selectedNoteId === id`,
`setSelectedNoteId(notes.length > 0 ? notes[0].id : null)` — note that
`notes` here is the closure value, i.e. the PRE-filter list; on failure
`console.error` only. -/
def handleNoteDelete (s : AppState) (id : String)
    (res : Except StoreError Unit) : AppState × Bool :=
  match res with
  | .error _ => (s, true)
  | .ok _ =>
    ({ s with
        notes := s.notes.filter (fun note => decide (note.id ≠ id)),
        selectedNoteId :=
          if s.selectedNoteId = some id then
            match s.notes with
            | [] => none
            | n :: _ => some n.id
          else s.selectedNoteId },
      false)

/-- Concrete note used in witnesses and counterexamples. -/
def N1 : Note :=
  { id := "1", title := "Cosmic Thoughts", content := "a",
    category := "Inspiration", created_at := "2024-01-02" }

/-- Concrete note used in witnesses and counterexamples. -/
def N2 : Note :=
  { id := "2", title := "Project Nebula", content := "b",
    category := "Work", created_at := "2024-01-03" }

/-- Claim C1 (code bug exhibit): with `notes=[N2,N1]` and N2 selected,
a successful `delete(N2.id)` leaves `notes=[N1]` but sets
`selectedNoteId` from the stale pre-delete array to the deleted id "2",
so the derived `selectedNote` is absent instead of the first remaining
note N1 as the claim (and the spec scenario) require. -/
theorem C1_delete_selected_first_dangles :
    (handleNoteDelete
        { notes := [N2, N1], selectedNoteId := some "2", loading := false }
        "2" (Except.ok ())).1.notes = [N1] ∧
    (handleNoteDelete
        { notes := [N2, N1], selectedNoteId := some "2", loading := false }
        "2" (Except.ok ())).1.selectedNoteId = some "2" ∧
    selectedNote (handleNoteDelete
        { notes := [N2, N1], selectedNoteId := some "2", loading := false }
        "2" (Except.ok ())).1 = none := by
  decide

/-- Claim C2 (code bug exhibit): the state reached from the initial state
by two successful creates followed by a successful delete of the selected
(first) note has `selectedNoteId = some "2"` while no note with id "2"
remains — a dangling selection, violating the claimed invariant. -/
theorem C2_dangling_selection_reachable :
    (handleNoteDelete
        (handleNoteCreate
          (handleNoteCreate initialState (Except.ok N1)).1
          (Except.ok N2)).1
        "2" (Except.ok ())).1.selectedNoteId = some "2" ∧
    (handleNoteDelete
        (handleNoteCreate
          (handleNoteCreate initialState (Except.ok N1)).1
          (Except.ok N2)).1
        "2" (Except.ok ())).1.notes.map Note.id = ["1"] ∧
    ("2" : String) ∉
      (handleNoteDelete
        (handleNoteCreate
          (handleNoteCreate initialState (Except.ok N1)).1
          (Except.ok N2)).1
        "2" (Except.ok ())).1.notes.map Note.id := by
  decide

/-- Claim C3 (counterexample): with `notes=[N1]` and N1 selected, selecting
the absent id "ghost" DOES change `selectedNoteId` — `handleNoteSelect`
performs no existence check, so the claimed no-op behavior fails. -/
theorem C3_select_missing_id_not_noop :
    (handleNoteSelect
        { notes := [N1], selectedNoteId := some "1", loading := false }
        "ghost").selectedNoteId ≠
      ({ notes := [N1], selectedNoteId := some "1", loading := false }
        : AppState).selectedNoteId := by
  decide

/-- Claim C3 (amended): `select(id)` sets `selectedNoteId` to `id`
unconditionally, leaving the collection unchanged; when `id` is not the
id of any note in the collection the selection dangles and the derived
`selectedNote` is absent. -/
theorem C3_select_unconditional (s : AppState) (id : String) :
    (handleNoteSelect s id).selectedNoteId = some id ∧
    (handleNoteSelect s id).notes = s.notes ∧
    (id ∉ s.notes.map Note.id →
      selectedNote (handleNoteSelect s id) = none) := by
  refine ⟨rfl, rfl, fun h => ?_⟩
  apply List.find?_eq_none.mpr
  intro note hmem
  simp only [handleNoteSelect, decide_eq_true_eq, Option.some_inj]
  intro hid
  exact h (hid ▸ List.mem_map_of_mem Note.id hmem)

/-- Witness for C3_select_unconditional at a concrete input. -/
theorem C3_select_unconditional_witness :
    selectedNote (handleNoteSelect
      { notes := [N1], selectedNoteId := some "1", loading := false }
      "ghost") = none :=
  (C3_select_unconditional
      { notes := [N1], selectedNoteId := some "1", loading := false }
      "ghost").2.2 (by decide)

/-- Claim C4: under successful adapter calls, `create` prepends the new
note to the collection, `update` leaves the sequence of note ids (hence
the relative order of entries) unchanged, and `delete` yields a sublist
(relative order of survivors preserved). -/
theorem C4_ordering_stability :
    (∀ (s : AppState) (data : Note),
      (handleNoteCreate s (Except.ok data)).1.notes = data :: s.notes) ∧
    (∀ (s : AppState) (n : Note),
      ((handleNoteUpdate s n (Except.ok ())).1.notes).map Note.id =
        s.notes.map Note.id) ∧
    (∀ (s : AppState) (id : String),
      ((handleNoteDelete s id (Except.ok ())).1.notes).Sublist s.notes) := by
  refine ⟨fun s data => rfl, fun s n => ?_, fun s id => List.filter_sublist _⟩
  simp only [handleNoteUpdate, List.map_map]
  apply List.map_congr_left
  intro a _
  by_cases h : a.id = n.id
  · simp [Function.comp, h]
  · simp [Function.comp, h]

/-- Claim C5: every operation given a `StoreError` adapter response leaves
the in-memory collection and selection exactly unchanged (for `create`,
`update`, `delete` the whole state is returned untouched, so in particular
the entry for `note.id` after a failed update equals its pre-call value),
and the error surfaces as the non-fatal signal `true` (the `catch` /
`console.error` branch) rather than a thrown exception — the embedded
handlers are total functions. -/
theorem C5_storeerror_leaves_state_unchanged (s : AppState) (e : StoreError)
    (n : Note) (id : String) :
    ((fetchNotes s (Except.error e)).1.notes = s.notes ∧
      (fetchNotes s (Except.error e)).1.selectedNoteId = s.selectedNoteId ∧
      (fetchNotes s (Except.error e)).2 = true) ∧
    ((handleNoteCreate s (Except.error e)).1 = s ∧
      (handleNoteCreate s (Except.error e)).2 = true) ∧
    ((handleNoteUpdate s n (Except.error e)).1 = s ∧
      (handleNoteUpdate s n (Except.error e)).2 = true) ∧
    ((handleNoteDelete s id (Except.error e)).1 = s ∧
      (handleNoteDelete s id (Except.error e)).2 = true) :=
  ⟨⟨rfl, rfl, rfl⟩, ⟨rfl, rfl⟩, ⟨rfl, rfl⟩, ⟨rfl, rfl⟩⟩

/-- Claim C6: a successful `load()` replaces the collection with the
fetched sequence; when no note was selected (`selectedNoteId = none`) and
the fetched sequence is non-empty, the first fetched note becomes
selected; on adapter failure the prior collection and selection are
unchanged. -/
theorem C6_load_replaces_and_selects (s : AppState) (data : List Note)
    (e : StoreError) :
    (fetchNotes s (Except.ok data)).1.notes = data ∧
    (s.selectedNoteId = none → ∀ (d : Note) (rest : List Note),
      data = d :: rest →
      (fetchNotes s (Except.ok data)).1.selectedNoteId = some d.id) ∧
    ((fetchNotes s (Except.error e)).1.notes = s.notes ∧
      (fetchNotes s (Except.error e)).1.selectedNoteId =
        s.selectedNoteId) := by
  refine ⟨rfl, ?_, rfl, rfl⟩
  intro hsel d rest hdata
  subst hdata
  simp [fetchNotes, hsel, jsFalsy]

/-- Witness for C6_load_replaces_and_selects at a concrete input. -/
theorem C6_load_replaces_and_selects_witness :
    (fetchNotes initialState (Except.ok [N1])).1.selectedNoteId =
      some "1" :=
  (C6_load_replaces_and_selects initialState [N1] ⟨"err"⟩).2.1 rfl N1 [] rfl

/-- Claim C7: a successful `create()` prepends the adapter-returned note —
which, by the adapter contract echoing the draft, has title "New Note",
content "" and category "Uncategorized" — and selects its id; on adapter
failure the whole state is unchanged and the draft is discarded. -/
theorem C7_create_prepends_defaults (s : AppState) (d : Note)
    (e : StoreError) (hresp : respondsTo newNote d) :
    (handleNoteCreate s (Except.ok d)).1.notes = d :: s.notes ∧
    d.title = "New Note" ∧ d.content = "" ∧ d.category = "Uncategorized" ∧
    (handleNoteCreate s (Except.ok d)).1.selectedNoteId = some d.id ∧
    (handleNoteCreate s (Except.error e)).1 = s := by
  obtain ⟨ht, hc, hk⟩ := hresp
  exact ⟨rfl, ht, hc, hk, rfl, rfl⟩

/-- A server response to the default draft, used as witness input. -/
def freshNote : Note :=
  { id := "7", title := "New Note", content := "",
    category := "Uncategorized", created_at := "2024-02-02" }

/-- Witness for C7_create_prepends_defaults at a concrete input. -/
theorem C7_create_prepends_defaults_witness :
    (handleNoteCreate initialState (Except.ok freshNote)).1.notes =
      [freshNote] ∧
    (handleNoteCreate initialState
      (Except.ok freshNote)).1.selectedNoteId = some "7" :=
  ⟨(C7_create_prepends_defaults initialState freshNote ⟨"err"⟩
      ⟨rfl, rfl, rfl⟩).1,
    (C7_create_prepends_defaults initialState freshNote ⟨"err"⟩
      ⟨rfl, rfl, rfl⟩).2.2.2.2.1⟩

/-- Claim C8: a successful `update(n)` keeps the length, maps each
position to `n` exactly when the stored note's id equals `n.id` (same
position, all other entries untouched), leaves the selection unchanged,
and is a no-op on the collection when `n.id` is not present. -/
theorem C8_update_replaces_in_place (s : AppState) (n : Note) :
    (handleNoteUpdate s n (Except.ok ())).1.notes.length =
      s.notes.length ∧
    (∀ i : Nat, ((handleNoteUpdate s n (Except.ok ())).1.notes)[i]? =
      (s.notes[i]?).map
        (fun note => if note.id = n.id then n else note)) ∧
    (handleNoteUpdate s n (Except.ok ())).1.selectedNoteId =
      s.selectedNoteId ∧
    (n.id ∉ s.notes.map Note.id →
      (handleNoteUpdate s n (Except.ok ())).1.notes = s.notes) := by
  refine ⟨?_, fun i => ?_, rfl, fun h => ?_⟩
  · simp [handleNoteUpdate]
  · simp [handleNoteUpdate, List.getElem?_map]
  · have hcong : ∀ note ∈ s.notes,
        (if note.id = n.id then n else note) = note := by
      intro note hmem
      apply if_neg
      intro hid
      exact h (hid ▸ List.mem_map_of_mem Note.id hmem)
    show s.notes.map (fun note => if note.id = n.id then n else note) =
      s.notes
    exact (List.map_congr_left hcong).trans (List.map_id _)

/-- Witness for C8_update_replaces_in_place at a concrete input. -/
theorem C8_update_replaces_in_place_witness :
    (handleNoteUpdate
        { notes := [N1], selectedNoteId := some "1", loading := false }
        N2 (Except.ok ())).1.notes = [N1] :=
  (C8_update_replaces_in_place
      { notes := [N1], selectedNoteId := some "1", loading := false }
      N2).2.2.2 (by decide)

/-- Loading the same collection a second time never changes the selection:
after the first load the selection is either non-falsy, so the guard
keeps it, or it equals the value the guard would assign again. -/
theorem fetchNotes_twice_selectedNoteId (s : AppState) (data : List Note) :
    (fetchNotes (fetchNotes s (Except.ok data)).1
        (Except.ok data)).1.selectedNoteId =
      (fetchNotes s (Except.ok data)).1.selectedNoteId := by
  cases data with
  | nil => rfl
  | cons d rest =>
    simp only [fetchNotes]
    cases h : jsFalsy s.selectedNoteId
    · simp [h]
    · cases h2 : jsFalsy (some d.id) <;> simp [h, h2]

/-- Claim C9: loading the same remote collection twice in succession
yields the same exposed collection as loading it once, and the second
load does not change `selectedNoteId` when it already references a note
present in the loaded collection. -/
theorem C9_load_idempotent (s : AppState) (data : List Note) :
    (fetchNotes (fetchNotes s (Except.ok data)).1
        (Except.ok data)).1.notes =
      (fetchNotes s (Except.ok data)).1.notes ∧
    (∀ i : String,
      (fetchNotes s (Except.ok data)).1.selectedNoteId = some i →
      i ∈ (fetchNotes s (Except.ok data)).1.notes.map Note.id →
      (fetchNotes (fetchNotes s (Except.ok data)).1
          (Except.ok data)).1.selectedNoteId = some i) := by
  refine ⟨rfl, fun i hsel _ => ?_⟩
  rw [fetchNotes_twice_selectedNoteId]
  exact hsel

/-- Witness for C9_load_idempotent at a concrete input. -/
theorem C9_load_idempotent_witness :
    (fetchNotes (fetchNotes initialState (Except.ok [N1])).1
        (Except.ok [N1])).1.selectedNoteId = some "1" :=
  (C9_load_idempotent initialState [N1]).2 "1" (by decide) (by decide)

/-- Claim C10: deleting an id different from the current selection leaves
the selection unchanged on success, leaves the whole state unchanged on
failure, and on success affects only the entries carrying that id: the
result contains no entry with the deleted id, retains every other entry,
and is a sublist (order preserved) of the original collection. -/
theorem C10_delete_other_preserves_selection (s : AppState) (id : String)
    (e : StoreError) (h : s.selectedNoteId ≠ some id) :
    (handleNoteDelete s id (Except.ok ())).1.selectedNoteId =
      s.selectedNoteId ∧
    (handleNoteDelete s id (Except.error e)).1 = s ∧
    (∀ note ∈ (handleNoteDelete s id (Except.ok ())).1.notes,
      note.id ≠ id) ∧
    (∀ note ∈ s.notes, note.id ≠ id →
      note ∈ (handleNoteDelete s id (Except.ok ())).1.notes) ∧
    ((handleNoteDelete s id (Except.ok ())).1.notes).Sublist s.notes := by
  refine ⟨?_, rfl, ?_, ?_, List.filter_sublist _⟩
  · simp [handleNoteDelete, h]
  · intro note hmem
    have hmem' := (List.mem_filter.mp hmem).2
    simpa using hmem'
  · intro note hmem hne
    exact List.mem_filter.mpr ⟨hmem, by simpa using hne⟩

/-- Witness for C10_delete_other_preserves_selection at a concrete input. -/
theorem C10_delete_other_preserves_selection_witness :
    (handleNoteDelete
        { notes := [N1, N2], selectedNoteId := some "1", loading := false }
        "2" (Except.ok ())).1.selectedNoteId = some "1" :=
  (C10_delete_other_preserves_selection
      { notes := [N1, N2], selectedNoteId := some "1", loading := false }
      "2" ⟨"err"⟩ (by decide)).1
